import Mathlib

/-!
Verification of the behavior-change intervention pipeline.

Shallow embedding of the core logic of the repository:
- `main_agent.py` : `BehaviorChangeAgent.analyze_barrier`,
  `BehaviorChangeAgent.select_technique`, `BehaviorChangeAgent.generate_intervention`.
- `feedback_manager.py` : `FeedbackManager.save_feedback`, `FeedbackManager.get_statistics`.

Modelling conventions:
- Python strings are Lean `String`; `str.lower` / `str.strip` are modelled over the
  character list (ASCII case folding, as both concrete test inputs are ASCII).
- The external text-generation call is modelled by passing its outcome as an
  explicit `Except String String` argument (error = any raised exception).
- Python `float` values arising in statistics are modelled as exact rationals `ℚ`.
- The CSV feedback file is modelled as the list of its data rows (header elided);
  `save_feedback` in append mode becomes list append, with the timestamp produced by
  `datetime.now()` passed as an explicit argument.
-/

/-- Python `s.lower()` restricted to ASCII case folding (`Char.toLower`). -/
def pyLower (s : String) : String := ⟨s.data.map Char.toLower⟩

/-- Python `s.strip()`: drop leading and trailing whitespace. -/
def pyStrip (s : String) : String :=
  ⟨((s.data.dropWhile Char.isWhitespace).reverse.dropWhile Char.isWhitespace).reverse⟩

/-- `pat` occurs as a contiguous sublist of `hay`. -/
def listContains (pat : List Char) : List Char → Bool
  | [] => pat.isEmpty
  | c :: cs => pat.isPrefixOf (c :: cs) || listContains pat cs

/-- Python `pat in hay` for strings: substring containment (the empty pattern is
contained in every string, as in Python). -/
def strContains (hay pat : String) : Bool := listContains pat.data hay.data

/-- Fuel-driven worker for `pyReplace`: replaces occurrences of `pat` left to right,
non-overlapping, exactly as Python `str.replace` scans. -/
def replFuel (pat rep : List Char) : Nat → List Char → List Char
  | 0, s => s
  | _ + 1, [] => []
  | n + 1, c :: cs =>
    if pat.isPrefixOf (c :: cs) then
      rep ++ replFuel pat rep n ((c :: cs).drop pat.length)
    else
      c :: replFuel pat rep n cs

/-- Python `s.replace(pat, rep)` for a non-empty pattern (the only use in the source
replaces the literal `[GOAL]`). The fuel `s.data.length` suffices because every
step consumes at least one character when the pattern is non-empty. -/
def pyReplace (s pat rep : String) : String :=
  if pat.data = [] then s else ⟨replFuel pat.data rep.data s.data.length s.data⟩

/-- The apostrophe character, kept out of string literals. -/
def apos : String := String.singleton (Char.ofNat 39)

/-! ## Technique catalog (`techniques_library.json` entries, fields as accessed
by `main_agent.py`). -/

structure Technique where
  name : String
  target_component : String
  barrier_keywords : List String
  prompt_template : String
  theory : String
  duration_minutes : Nat
  evidence_base : String
deriving DecidableEq

/-! ## `BehaviorChangeAgent.select_technique` (main_agent.py lines 106-137),
well-formed-catalog view.

The Python body lowers the barrier text, then makes three passes over
`self.techniques`:
pass 1 returns the first technique whose `target_component` equals the target and
one of whose `barrier_keywords` occurs in the lowered barrier text; pass 2 returns
the first technique whose `target_component` equals the target; pass 3 returns
`self.techniques[0] if self.techniques else None`. -/

def select_technique (barrier_text target_component : String)
    (techniques : List Technique) : Option Technique :=
  let barrier_lower := pyLower barrier_text
  match techniques.find? (fun tech =>
      tech.target_component == target_component &&
      tech.barrier_keywords.any (fun keyword => strContains barrier_lower keyword)) with
  | some tech => some tech
  | none =>
    match techniques.find? (fun tech => tech.target_component == target_component) with
    | some tech => some tech
    | none => techniques.head?

/-- Spec-level selector, written from the specification text of §4.2: pass 1 fires
when some catalog entry matches category and keywords, pass 2 when some entry
matches category, pass 3 returns the first entry. -/
def specPass1 (barrier_lower category : String) (t : Technique) : Bool :=
  t.target_component == category &&
    t.barrier_keywords.any (fun keyword => strContains barrier_lower keyword)

/-- Category-only match used by pass 2 of the specification selector. -/
def specPass2 (category : String) (t : Technique) : Bool :=
  t.target_component == category

/-- Selector following the spec wording of §4.2 (three ordered passes). -/
def select_spec (barrier_text category : String) (catalog : List Technique) :
    Option Technique :=
  if catalog.any (specPass1 (pyLower barrier_text) category) then
    catalog.find? (specPass1 (pyLower barrier_text) category)
  else if catalog.any (specPass2 category) then
    catalog.find? (specPass2 category)
  else
    catalog.head?

/-! ## `BehaviorChangeAgent.analyze_barrier` (main_agent.py lines 66-104).

The prompt built from `barrier_text` only feeds the external call, whose outcome
is the `response` argument: `Except.ok text` is a successful `response.text`,
`Except.error e` is any raised exception. -/

/-- The response parsing chain of `analyze_barrier`: the response text is stripped
and lowered, then matched for the fragments `capab` and `opportun`. -/
def parse_component (component : String) : String :=
  if strContains component "capab" then "capability"
  else if strContains component "opportun" then "opportunity"
  else "motivation"

set_option linter.unusedVariables false in
def analyze_barrier (barrier_text : String) (response : Except String String) :
    String :=
  match response with
  | Except.ok text => parse_component (pyLower (pyStrip text))
  | Except.error _ => "motivation"

/-! ## `BehaviorChangeAgent.generate_intervention` (main_agent.py lines 139-199).

The barrier text is used only inside the prompt sent to the external call; the
outcome of that call is the `response` argument. On success the result carries
the stripped response text; on any exception the result carries the fallback
string built from a fixed prefix, the goal and the filled template. -/

structure InterventionResult where
  intervention_text : String
  technique_name : String
  theory : String
  duration_minutes : Nat
  evidence : String
  target_component : String
deriving DecidableEq

set_option linter.unusedVariables false in
def generate_intervention (user_goal : String) (technique : Technique)
    (barrier_text : String) (response : Except String String) : InterventionResult :=
  match response with
  | Except.ok text =>
    { intervention_text := pyStrip text
      technique_name := technique.name
      theory := technique.theory
      duration_minutes := technique.duration_minutes
      evidence := technique.evidence_base
      target_component := technique.target_component }
  | Except.error _ =>
    { intervention_text :=
        "Let" ++ apos ++ "s work on " ++ user_goal ++ ". " ++
          pyReplace technique.prompt_template "[GOAL]" user_goal
      technique_name := technique.name
      theory := technique.theory
      duration_minutes := technique.duration_minutes
      evidence := technique.evidence_base
      target_component := technique.target_component }

/-! ## `select_technique` over raw dictionary records.

`self.techniques` is a JSON-decoded list of dictionaries, so a record may lack the
keys the scan reads; the whole body runs under `try`, and the handler returns
`self.techniques[0] if self.techniques else None`. A raw record models the two keys
`select_technique` subscripts, each possibly absent. -/

structure RawTech where
  target_component : Option String
  barrier_keywords : Option (List String)
deriving DecidableEq

/-- Python dictionary subscription: raises `KeyError` when the key is absent. -/
def getKey {α : Type} (v : Option α) : Except String α :=
  match v with
  | some a => Except.ok a
  | none => Except.error "KeyError"

/-- First loop of `select_technique` on raw records: component equality is tested
first, and the keyword list is subscripted only when the component matched. -/
def rawPass1 (barrier_lower target : String) :
    List RawTech → Except String (Option RawTech)
  | [] => Except.ok none
  | tech :: rest => do
    let comp ← getKey tech.target_component
    if comp = target then
      let keywords ← getKey tech.barrier_keywords
      match keywords.find? (fun keyword => strContains barrier_lower keyword) with
      | some _ => pure (some tech)
      | none => rawPass1 barrier_lower target rest
    else
      rawPass1 barrier_lower target rest

/-- Second loop of `select_technique` on raw records. -/
def rawPass2 (target : String) : List RawTech → Except String (Option RawTech)
  | [] => Except.ok none
  | tech :: rest => do
    let comp ← getKey tech.target_component
    if comp = target then pure (some tech) else rawPass2 target rest

/-- The `try` body of `select_technique` on raw records. -/
def selectRawCore (barrier_text target : String) (techniques : List RawTech) :
    Except String (Option RawTech) := do
  match ← rawPass1 (pyLower barrier_text) target techniques with
  | some tech => pure (some tech)
  | none =>
    match ← rawPass2 target techniques with
    | some tech => pure (some tech)
    | none => pure techniques.head?

/-- `select_technique` with its exception handler: any exception from the scan is
caught and the first catalog entry (or `none`) is returned. -/
def select_technique_raw (barrier_text target : String)
    (techniques : List RawTech) : Option RawTech :=
  match selectRawCore barrier_text target techniques with
  | Except.ok r => r
  | Except.error _ => techniques.head?

/-! ## Feedback log (`feedback_manager.py`).

The CSV file is modelled as the list of its data rows (the header row written by
`_initialize_csv` carries no data and is elided; `csv.DictReader` consumes it).
Every field is stored as a string, as in the CSV. -/

structure Row where
  timestamp : String
  user_goal : String
  user_barrier : String
  target_component : String
  technique_used : String
  theory : String
  rating : String
  would_try : String
  feedback_text : String
deriving DecidableEq

/-- `FeedbackManager.save_feedback` (lines 46-72), success path: the file is opened
in append mode and one row is written after the existing content. `datetime.now()`
is passed in as the `now` argument. -/
def save_feedback (log : List Row) (now user_goal user_barrier target_component
    technique_name theory rating would_try feedback_text : String) : List Row :=
  log ++ [{ timestamp := now
            user_goal := user_goal
            user_barrier := user_barrier
            target_component := target_component
            technique_used := technique_name
            theory := theory
            rating := rating
            would_try := would_try
            feedback_text := feedback_text }]

/-- Value of a digit string, most significant first. -/
def digitsToNat (ds : List Char) : Nat :=
  ds.foldl (fun n c => 10 * n + (c.toNat - 48)) 0

/-- Python `float(s)` modelled over exact rationals, for the decimal forms the log
can contain: optional surrounding whitespace, optional sign, digits with an
optional fractional part (`4`, `4.`, `.5`, `-2.25`). Exponents and the special
words `inf`/`nan` are not modelled; every string outside this grammar yields
`none`, standing for the `ValueError` that `float` raises. -/
def pyFloat (s : String) : Option ℚ :=
  let cs := (pyStrip s).data
  let signed : ℚ × List Char :=
    match cs with
    | '-' :: rest => (-1, rest)
    | '+' :: rest => (1, rest)
    | _ => (1, cs)
  let intPart := signed.2.takeWhile Char.isDigit
  let rest := signed.2.dropWhile Char.isDigit
  match rest with
  | [] => if intPart.isEmpty then none else some (signed.1 * digitsToNat intPart)
  | '.' :: frac =>
    if frac.all Char.isDigit && !(intPart.isEmpty && frac.isEmpty) then
      some (signed.1 * ((digitsToNat intPart : ℚ) +
        (digitsToNat frac : ℚ) / ((10 : ℚ) ^ frac.length)))
    else none
  | _ => none

/-- `sum(float(row['rating']) for row in rows)` fails as soon as one rating does not
parse; the surrounding `try` then returns `None`. `ratingsOf` is `some` exactly when
every rating parses. -/
def ratingsOf : List Row → Option (List ℚ)
  | [] => some []
  | row :: rest =>
    match pyFloat row.rating, ratingsOf rest with
    | some q, some qs => some (q :: qs)
    | _, _ => none

/-- `row['would_try'].lower() in ['yes', 'maybe']`. -/
def wouldTryYesMaybe (row : Row) : Bool :=
  pyLower row.would_try == "yes" || pyLower row.would_try == "maybe"

/-- One step of the `technique_ratings` loop: Python dictionaries preserve insertion
order, so the accumulator is an association list with new keys appended at the end
and new ratings appended to the existing list. -/
def bucketAdd : List (String × List ℚ) → String → ℚ → List (String × List ℚ)
  | [], tech, q => [(tech, [q])]
  | (k, qs) :: rest, tech, q =>
    if k = tech then (k, qs ++ [q]) :: rest else (k, qs) :: bucketAdd rest tech q

/-- One step of the `component_count` loop. -/
def compAdd : List (String × Nat) → String → List (String × Nat)
  | [], comp => [(comp, 1)]
  | (k, n) :: rest, comp =>
    if k = comp then (k, n + 1) :: rest else (k, n) :: compAdd rest comp

structure Stats where
  total_responses : Nat
  average_rating : ℚ
  would_try_percent : ℚ
  technique_performance : List (String × ℚ)
  component_distribution : List (String × Nat)
deriving DecidableEq

/-- `FeedbackManager.get_statistics` (lines 74-138) on the data rows of an existing
file. An empty row list returns `None`; a rating that `float` cannot parse raises
inside the catch-all handler, which returns `None`; otherwise every aggregate is
recomputed from the full row list. The second `float` pass of the
`technique_ratings` loop reuses the already-parsed ratings via `zip`, which is
exact because the first pass established that every rating parses. -/
def get_statistics (rows : List Row) : Option Stats :=
  if rows.length = 0 then none
  else
    match ratingsOf rows with
    | none => none
    | some qs =>
      let total := rows.length
      some { total_responses := total
             average_rating := qs.sum / (total : ℚ)
             would_try_percent :=
               (((rows.filter wouldTryYesMaybe).length : ℚ) / (total : ℚ)) * 100
             technique_performance :=
               ((rows.zip qs).foldl
                 (fun acc p => bucketAdd acc p.1.technique_used p.2) []).map
                 (fun p => (p.1, p.2.sum / (p.2.length : ℚ)))
             component_distribution :=
               rows.foldl (fun acc row => compAdd acc row.target_component) [] }

/-! ## Concrete values used by witnesses and counterexamples. -/

/-- The single-technique catalog entry of the spec example scenario (§8); the
fields the scenario leaves open are blank. -/
def techA : Technique :=
  { name := "A"
    target_component := "motivation"
    barrier_keywords := ["tired", "bored"]
    prompt_template := "Try pairing [GOAL] with something fun."
    theory := ""
    duration_minutes := 0
    evidence_base := "" }

/-- A capability-targeted technique whose keywords miss most barrier texts. -/
def techB : Technique :=
  { name := "B"
    target_component := "capability"
    barrier_keywords := ["how"]
    prompt_template := "Break [GOAL] into tiny steps."
    theory := ""
    duration_minutes := 0
    evidence_base := "" }

/-- A raw record with both keys absent. -/
def rawBad : RawTech := { target_component := none, barrier_keywords := none }

/-- Feedback row of the spec example scenario: rating 4, trial-intent Yes. -/
def row1 : Row :=
  { timestamp := "2024-01-01 10:00:00"
    user_goal := "exercise more"
    user_barrier := "too tired"
    target_component := "motivation"
    technique_used := "Temptation Bundling"
    theory := "Behavioral Economics"
    rating := "4"
    would_try := "Yes"
    feedback_text := "" }

/-- Feedback row of the spec example scenario: rating 2, trial-intent No. -/
def row2 : Row :=
  { timestamp := "2024-01-01 11:00:00"
    user_goal := "exercise more"
    user_barrier := "too busy"
    target_component := "opportunity"
    technique_used := "Habit Stacking"
    theory := "Atomic Habits"
    rating := "2"
    would_try := "No"
    feedback_text := "" }

/-- A row whose rating field is not numeric. -/
def rowBad : Row :=
  { timestamp := "2024-01-01 12:00:00"
    user_goal := "read more"
    user_barrier := "no time"
    target_component := "opportunity"
    technique_used := "Habit Stacking"
    theory := "Atomic Habits"
    rating := "abc"
    would_try := "Maybe"
    feedback_text := "" }

/-- Replay a list of feedback records through `save_feedback` from an empty log. -/
def replayLog (records : List Row) : List Row :=
  records.foldl (fun log r =>
    save_feedback log r.timestamp r.user_goal r.user_barrier r.target_component
      r.technique_used r.theory r.rating r.would_try r.feedback_text) []

/-! ## Claim theorems. -/

set_option linter.unusedVariables false in
/-- C1: for every barrier text, category and non-empty catalog, `select_technique`
follows the three-pass rule of the spec: first catalog entry matching category and
a keyword occurring in the lower-cased barrier text, else first entry matching the
category, else the first catalog entry. -/
theorem select_technique_three_pass (barrier_text category : String)
    (catalog : List Technique) (hne : catalog ≠ []) :
    select_technique barrier_text category catalog =
      select_spec barrier_text category catalog := by
  simp only [select_technique, select_spec]
  rw [show (fun tech : Technique =>
        tech.target_component == category &&
        tech.barrier_keywords.any fun keyword =>
          strContains (pyLower barrier_text) keyword) =
      specPass1 (pyLower barrier_text) category from rfl,
    show (fun tech : Technique => tech.target_component == category) =
      specPass2 category from rfl]
  cases h1 : catalog.find? (specPass1 (pyLower barrier_text) category) with
  | some t =>
    have hmem := List.mem_of_find?_eq_some h1
    have hpt := List.find?_some h1
    have hp : catalog.any (specPass1 (pyLower barrier_text) category) = true :=
      List.any_eq_true.2 ⟨t, hmem, hpt⟩
    rw [if_pos hp]
  | none =>
    have hp : catalog.any (specPass1 (pyLower barrier_text) category) = false :=
      List.any_eq_false.2 fun x hx => by simpa using List.find?_eq_none.1 h1 x hx
    rw [if_neg (by simp [hp])]
    cases h2 : catalog.find? (specPass2 category) with
    | some t =>
      have hmem := List.mem_of_find?_eq_some h2
      have hqt := List.find?_some h2
      have hq : catalog.any (specPass2 category) = true :=
        List.any_eq_true.2 ⟨t, hmem, hqt⟩
      rw [if_pos hq]
    | none =>
      have hq : catalog.any (specPass2 category) = false :=
        List.any_eq_false.2 fun x hx => by simpa using List.find?_eq_none.1 h2 x hx
      rw [if_neg (by simp [hq])]

/-- Witness for C1: a concrete two-technique catalog where pass 1 fires. -/
theorem select_technique_three_pass_witness :
    ([techB, techA] ≠ [] ∧
      select_technique "always too tired after work" "motivation" [techB, techA] =
        select_spec "always too tired after work" "motivation" [techB, techA]) ∧
    select_technique "always too tired after work" "motivation" [techB, techA] =
      some techA := by
  refine ⟨⟨by simp, select_technique_three_pass "always too tired after work"
    "motivation" [techB, techA] (by simp)⟩, by decide⟩

/-- C5: `select_technique` returns `none` exactly when the catalog is empty, and
some technique on every non-empty catalog. -/
theorem select_technique_none_iff_empty (barrier_text category : String)
    (catalog : List Technique) :
    select_technique barrier_text category catalog = none ↔ catalog = [] := by
  simp only [select_technique]
  cases h1 : catalog.find? (fun tech =>
      tech.target_component == category &&
      tech.barrier_keywords.any fun keyword =>
        strContains (pyLower barrier_text) keyword) with
  | some t =>
    have : catalog ≠ [] := List.ne_nil_of_mem (List.mem_of_find?_eq_some h1)
    simp [h1, this]
  | none =>
    cases h2 : catalog.find? (fun tech => tech.target_component == category) with
    | some t =>
      have : catalog ≠ [] := List.ne_nil_of_mem (List.mem_of_find?_eq_some h2)
      simp [h1, h2, this]
    | none =>
      simp [h1, h2, List.head?_eq_none_iff]

/-- C3: `analyze_barrier` always returns one of the three category values, and on a
successful call it parses the response by substring containment on the stripped,
lower-cased text: `capab` gives capability, else `opportun` gives opportunity,
else motivation. -/
theorem analyze_barrier_three_values (barrier_text : String)
    (response : Except String String) :
    (analyze_barrier barrier_text response = "capability" ∨
     analyze_barrier barrier_text response = "opportunity" ∨
     analyze_barrier barrier_text response = "motivation") ∧
    (∀ text, response = Except.ok text →
      ((strContains (pyLower (pyStrip text)) "capab" = true →
          analyze_barrier barrier_text response = "capability") ∧
       (strContains (pyLower (pyStrip text)) "capab" = false →
        strContains (pyLower (pyStrip text)) "opportun" = true →
          analyze_barrier barrier_text response = "opportunity") ∧
       (strContains (pyLower (pyStrip text)) "capab" = false →
        strContains (pyLower (pyStrip text)) "opportun" = false →
          analyze_barrier barrier_text response = "motivation"))) := by
  constructor
  · cases response with
    | error e => right; right; rfl
    | ok text =>
      simp only [analyze_barrier, parse_component]
      by_cases h1 : strContains (pyLower (pyStrip text)) "capab" = true
      · rw [if_pos h1]; left; rfl
      · rw [if_neg h1]
        by_cases h2 : strContains (pyLower (pyStrip text)) "opportun" = true
        · rw [if_pos h2]; right; left; rfl
        · rw [if_neg h2]; right; right; rfl
  · intro text htext
    subst htext
    simp only [analyze_barrier, parse_component]
    refine ⟨fun h1 => by rw [if_pos h1], fun h1 h2 => ?_, fun h1 h2 => ?_⟩
    · rw [if_neg (by simp [h1]), if_pos h2]
    · rw [if_neg (by simp [h1]), if_neg (by simp [h2])]

/-- Witness for C3 at a successful response ` OPPORTUNITY.` exercising strip,
lower-casing and the second containment test. -/
theorem analyze_barrier_three_values_witness :
    strContains (pyLower (pyStrip " OPPORTUNITY.")) "capab" = false ∧
    strContains (pyLower (pyStrip " OPPORTUNITY.")) "opportun" = true ∧
    analyze_barrier "some barrier" (Except.ok " OPPORTUNITY.") = "opportunity" :=
  ⟨by decide, by decide,
    ((analyze_barrier_three_values "some barrier"
      (Except.ok " OPPORTUNITY.")).2 " OPPORTUNITY." rfl).2.1 (by decide) (by decide)⟩

/-- C6: on any failure of the generation call, `analyze_barrier` returns the value
`motivation` directly; the function is total, so no error reaches the caller. -/
theorem analyze_barrier_error_default (barrier_text e : String) :
    analyze_barrier barrier_text (Except.error e) = "motivation" := rfl

/-- C7: the fallback path of `generate_intervention` is deterministic and does not
read the barrier text: with the same goal and technique, two failing calls yield
identical results whatever the barrier texts and the failures were. -/
theorem generate_intervention_fallback_deterministic (user_goal : String)
    (technique : Technique) (barrier1 barrier2 e1 e2 : String) :
    generate_intervention user_goal technique barrier1 (Except.error e1) =
      generate_intervention user_goal technique barrier2 (Except.error e2) := rfl

/-- C8: `save_feedback` appends exactly one row carrying the supplied timestamp:
the previous rows are an unchanged prefix of the new log, the length grows by one,
and the last row holds the recorded fields. -/
theorem save_feedback_appends_one_row (log : List Row) (now user_goal user_barrier
    target_component technique_name theory rating would_try feedback_text : String) :
    (save_feedback log now user_goal user_barrier target_component technique_name
        theory rating would_try feedback_text).take log.length = log ∧
    (save_feedback log now user_goal user_barrier target_component technique_name
        theory rating would_try feedback_text).length = log.length + 1 ∧
    (save_feedback log now user_goal user_barrier target_component technique_name
        theory rating would_try feedback_text).getLast? =
      some { timestamp := now
             user_goal := user_goal
             user_barrier := user_barrier
             target_component := target_component
             technique_used := technique_name
             theory := theory
             rating := rating
             would_try := would_try
             feedback_text := feedback_text } := by
  refine ⟨?_, ?_, ?_⟩
  · exact List.take_left log _
  · simp [save_feedback]
  · simp [save_feedback]

/-- Counterexample for C4: in the spec example scenario the fallback text is not
the bare filled template — the code prepends a fixed prefix naming the goal. -/
theorem generate_fallback_not_bare_template :
    (generate_intervention "exercise more" techA "too tired"
        (Except.error "quota")).intervention_text ≠
      "Try pairing exercise more with something fun." := by decide

/-- C4 (amended): when the generation call fails in the spec example scenario, the
fallback intervention text is the fixed prefix followed by the goal and the filled
template. -/
theorem generate_fallback_example :
    (generate_intervention "exercise more" techA "too tired"
        (Except.error "quota")).intervention_text =
      "Let" ++ apos ++ "s work on exercise more. " ++
        "Try pairing exercise more with something fun." := by decide

/-- Replaying records through `save_feedback` from the empty log reproduces the
record list itself. -/
theorem replayLog_eq (records : List Row) : replayLog records = records := by
  suffices h : ∀ acc : List Row, records.foldl (fun log r =>
      save_feedback log r.timestamp r.user_goal r.user_barrier r.target_component
        r.technique_used r.theory r.rating r.would_try r.feedback_text) acc =
      acc ++ records by
    simpa [replayLog] using h []
  induction records with
  | nil => intro acc; simp
  | cons r rs ih =>
    intro acc
    rw [List.foldl_cons, ih]
    show (acc ++ [r]) ++ rs = acc ++ r :: rs
    simp

/-- If one row's rating does not parse, the whole rating scan fails. -/
theorem ratingsOf_eq_none {rows : List Row} {row : Row} (hmem : row ∈ rows)
    (hbad : pyFloat row.rating = none) : ratingsOf rows = none := by
  induction rows with
  | nil => cases hmem
  | cons x xs ih =>
    rcases List.mem_cons.1 hmem with h | h
    · subst h
      simp [ratingsOf, hbad]
    · have hx := ih h
      cases hq : pyFloat x.rating <;> simp [ratingsOf, hq, hx]

/-- C2: round-trip of recording and aggregation. Appending any non-empty list of
records whose ratings all parse and whose trial-intent field is one of the three
enum values, then aggregating, yields the record count, the arithmetic mean of the
ratings, and the Yes-or-Maybe share times 100. -/
theorem statistics_round_trip (records : List Row) (qs : List ℚ)
    (hne : records ≠ [])
    (hparse : ratingsOf records = some qs)
    (hwt : ∀ r ∈ records, r.would_try = "Yes" ∨ r.would_try = "Maybe" ∨
      r.would_try = "No") :
    ∃ s, get_statistics (replayLog records) = some s ∧
      s.total_responses = records.length ∧
      s.average_rating = qs.sum / (records.length : ℚ) ∧
      s.would_try_percent =
        (((records.filter fun r =>
            r.would_try == "Yes" || r.would_try == "Maybe").length : ℚ) /
          (records.length : ℚ)) * 100 := by
  rw [replayLog_eq]
  have hfilter : records.filter wouldTryYesMaybe =
      records.filter fun r => r.would_try == "Yes" || r.would_try == "Maybe" := by
    apply List.filter_congr
    intro r hr
    rcases hwt r hr with h | h | h <;> rw [wouldTryYesMaybe, h] <;> decide
  have hlen : ¬ records.length = 0 := by
    simpa [List.length_eq_zero] using hne
  unfold get_statistics
  rw [hparse, if_neg hlen, hfilter]
  exact ⟨_, rfl, rfl, rfl, rfl⟩

/-- Witness for C2: the spec example scenario, rating 4 with intent Yes then
rating 2 with intent No, gives 2 responses, mean 3 and 50 percent. -/
theorem statistics_round_trip_witness :
    ∃ s, get_statistics (replayLog [row1, row2]) = some s ∧
      s.total_responses = 2 ∧ s.average_rating = 3 ∧ s.would_try_percent = 50 := by
  obtain ⟨s, hs, h1, h2, h3⟩ :=
    statistics_round_trip [row1, row2] [4, 2] (by decide)
      (by simp [ratingsOf, row1, row2, pyFloat, pyStrip, digitsToNat])
      (by decide)
  refine ⟨s, hs, h1, ?_, ?_⟩
  · rw [h2]; norm_num
  · rw [h3]
    have hyes : ("Yes" == "Yes" || "Yes" == "Maybe") = true := by decide
    have hno : ("No" == "Yes" || "No" == "Maybe") = false := by decide
    norm_num [row1, row2, List.filter, hyes, hno]

/-- C9: a single row with a non-numeric rating makes `get_statistics` return the
no-data value `none` for the whole log, dropping every well-formed row. -/
theorem statistics_poisoned_by_bad_rating (rows : List Row) (row : Row)
    (hmem : row ∈ rows) (hbad : pyFloat row.rating = none) :
    get_statistics rows = none := by
  have hn := ratingsOf_eq_none hmem hbad
  unfold get_statistics
  rw [hn]
  exact ite_self none

/-- Witness for C9: one well-formed row plus one row with rating `abc` yield
`none`. -/
theorem statistics_poisoned_witness :
    rowBad ∈ [row1, rowBad] ∧ pyFloat rowBad.rating = none ∧
      get_statistics [row1, rowBad] = none :=
  ⟨by decide, by decide,
    statistics_poisoned_by_bad_rating [row1, rowBad] rowBad (by decide) (by decide)⟩

/-- C10: `select_technique` on raw records is total; whenever the scanned body
raises (for example on a record missing a key), the handler returns the first
catalog entry, and the overall result is `none` exactly on the empty catalog. -/
theorem select_technique_raw_never_raises (barrier_text target : String)
    (techniques : List RawTech) :
    ((∃ e, selectRawCore barrier_text target techniques = Except.error e) →
        select_technique_raw barrier_text target techniques = techniques.head?) ∧
    (select_technique_raw barrier_text target techniques = none ↔ techniques = []) := by
  constructor
  · rintro ⟨e, he⟩
    unfold select_technique_raw
    rw [he]
  · unfold select_technique_raw
    cases hc : selectRawCore barrier_text target techniques with
    | error e => simp [List.head?_eq_none_iff]
    | ok r =>
      cases techniques with
      | nil =>
        have : r = none := by
          have : selectRawCore barrier_text target [] =
              Except.ok (none : Option RawTech) := rfl
          rw [this] at hc
          cases hc
          rfl
        simp [this]
      | cons t rest =>
        simp only [ne_eq]
        constructor
        · intro hr
          subst hr
          exfalso
          rw [selectRawCore] at hc
          cases hp1 : rawPass1 (pyLower barrier_text) target (t :: rest) with
          | error e => rw [hp1] at hc; cases hc
          | ok o1 =>
            rw [hp1] at hc
            cases o1 with
            | some tech => cases hc
            | none =>
              cases hp2 : rawPass2 target (t :: rest) with
              | error e => rw [hp2] at hc; cases hc
              | ok o2 =>
                rw [hp2] at hc
                cases o2 with
                | some tech => cases hc
                | none => cases hc
        · intro h
          cases h

/-- Witness for C10: a catalog whose only record lacks both keys makes the body
raise `KeyError`; the caught call still returns that first entry. -/
theorem select_technique_raw_witness :
    (∃ e, selectRawCore "x" "motivation" [rawBad] = Except.error e) ∧
    select_technique_raw "x" "motivation" [rawBad] = some rawBad := by
  have h := (select_technique_raw_never_raises "x" "motivation" [rawBad]).1
    ⟨"KeyError", rfl⟩
  exact ⟨⟨"KeyError", rfl⟩, by rw [h]; rfl⟩
